import Mathlib

/-
Shallow embedding of pebble-examples/actionmenu-multilevel (src/src/main.c).

The app builds a two-level ActionMenu (root level: "Short", "Long", "Double"
actions plus a "Custom Pattern" child level holding "Custom Fast",
"Custom Medium", "Custom Slow") and, when an action is performed, dispatches
on the VibrationType tag smuggled through the action-data pointer: the three
preset tags call a preset pulse, every other tag falls into the default
branch, which rewrites a persistent static uint32_t segments[5] buffer
(only when the tag is one of the three custom variants) and enqueues the
buffer as a custom vibration pattern.
-/

namespace ActionMenuML

/-- The VibrationType enumeration of main.c (lines 9-16). C gives the
    constants the values 0..5 in declaration order. -/
inductive VibrationType where
  | Short
  | Long
  | Double
  | CustomShort
  | CustomMedium
  | CustomLong
deriving DecidableEq, Fintype, Repr

/-- The integer value a VibrationType constant has in C (declaration order,
    starting at 0); this is the value cast into the action-data pointer. -/
def VibrationType.toTag : VibrationType → Int
  | .Short => 0
  | .Long => 1
  | .Double => 2
  | .CustomShort => 3
  | .CustomMedium => 4
  | .CustomLong => 5

/-- A haptic command issued to the Pebble vibes API: one of the three preset
    pulses, or a custom pattern carrying its list of segment durations. -/
inductive VibeCmd where
  | shortPulse
  | longPulse
  | doublePulse
  | customPattern (durations : List Nat)
deriving DecidableEq, Repr

/-- Modulus of the uint32_t type of the segments buffer. -/
def UINT32_MOD : Nat := 2 ^ 32

/-- One iteration of the pattern-synthesis loop body (main.c lines 46-53):
    the inner switch on the current tag stores i*100 / i*200 / i*300 into
    segments[i] for the three custom variants and, in its default case,
    leaves segments[i] untouched. The store is to a uint32_t slot, hence
    the explicit reduction modulo 2^32. -/
def segmentValue (tag : Int) (i : Nat) (old : Nat) : Nat :=
  if tag = 3 then (i * 100) % UINT32_MOD
  else if tag = 4 then (i * 200) % UINT32_MOD
  else if tag = 5 then (i * 300) % UINT32_MOD
  else old

/-- Mutable app state touched by the selection handler: the persistent
    static uint32_t segments[5] buffer (main.c line 39, zero-initialized)
    and s_current_type (main.c line 27). The menu singleton is carried
    separately by the lifecycle model below. -/
structure HandlerState where
  segments : Fin 5 → Nat
  current : Int

/-- action_performed_callback (main.c lines 34-63): store the tag into
    s_current_type, then switch on it; the three preset cases each issue
    one preset pulse, the default case runs the synthesis loop over all
    five indices (each iteration writes only index i) and then enqueues
    the segments buffer as a five-segment custom pattern. Returns the
    updated state and the list of haptic commands issued by the call. -/
def action_performed_callback (tag : Int) (st : HandlerState) :
    HandlerState × List VibeCmd :=
  let st1 : HandlerState := { st with current := tag }
  if tag = 0 then (st1, [VibeCmd.shortPulse])
  else if tag = 1 then (st1, [VibeCmd.longPulse])
  else if tag = 2 then (st1, [VibeCmd.doublePulse])
  else
    let segs : Fin 5 → Nat := fun i => segmentValue tag i.val (st1.segments i)
    ({ st1 with segments := segs },
     [VibeCmd.customPattern (List.ofFn segs)])

/-- An entry of an ActionMenuLevel: an action (label plus the tag passed as
    action data) or the attached child level ("Custom Pattern"), stored by
    reference in the real API and hence resolved against the custom-level
    slot below. -/
inductive MenuEntry where
  | action (label : String) (tag : Int)
  | childLevel (label : String)
deriving DecidableEq, Repr

/-- An ActionMenuLevel: the capacity given to action_menu_level_create and
    the entries appended so far. -/
structure ActionMenuLevel where
  capacity : Nat
  entries : List MenuEntry
deriving DecidableEq, Repr

/-- action_menu_level_create: a fresh level with the given capacity and no
    entries. -/
def action_menu_level_create (capacity : Nat) : ActionMenuLevel :=
  { capacity := capacity, entries := [] }

/-- action_menu_level_add_action: append an action entry when the level is
    not yet at capacity. -/
def action_menu_level_add_action (level : ActionMenuLevel) (label : String)
    (tag : Int) : ActionMenuLevel :=
  if level.entries.length < level.capacity then
    { level with entries := level.entries ++ [MenuEntry.action label tag] }
  else level

/-- action_menu_level_add_child: append a child-level entry when the level
    is not yet at capacity. -/
def action_menu_level_add_child (level : ActionMenuLevel) (label : String) :
    ActionMenuLevel :=
  if level.entries.length < level.capacity then
    { level with entries := level.entries ++ [MenuEntry.childLevel label] }
  else level

/-- The two level singletons s_root_level and s_custom_level
    (main.c line 30). -/
structure MenuState where
  root_level : ActionMenuLevel
  custom_level : ActionMenuLevel
deriving DecidableEq, Repr

/-- init_action_menu (main.c lines 65-88), statement by statement: create
    the root level with capacity 4, add the three preset actions, create
    the custom level with capacity 3, attach it to the root as
    "Custom Pattern", then add the three custom actions to the custom
    level (the root sees them through the shared reference, modelled by
    the separate custom_level slot). -/
def init_action_menu : MenuState :=
  let root0 := action_menu_level_create 4
  let root1 := action_menu_level_add_action root0 "Short"
      VibrationType.Short.toTag
  let root2 := action_menu_level_add_action root1 "Long"
      VibrationType.Long.toTag
  let root3 := action_menu_level_add_action root2 "Double"
      VibrationType.Double.toTag
  let custom0 := action_menu_level_create 3
  let root4 := action_menu_level_add_child root3 "Custom Pattern"
  let custom1 := action_menu_level_add_action custom0 "Custom Fast"
      VibrationType.CustomShort.toTag
  let custom2 := action_menu_level_add_action custom1 "Custom Medium"
      VibrationType.CustomMedium.toTag
  let custom3 := action_menu_level_add_action custom2 "Custom Slow"
      VibrationType.CustomLong.toTag
  { root_level := root4, custom_level := custom3 }

/-- A resolved node of the menu tree: a selectable leaf or an interior node
    owning its children. -/
inductive MenuNode where
  | leaf (label : String) (tag : Int)
  | interior (label : String) (children : List MenuNode)
deriving Repr

/-- Whether a resolved node is a leaf. -/
def MenuNode.isLeaf : MenuNode → Bool
  | .leaf _ _ => true
  | .interior _ _ => false

/-- Resolve an entry of the custom level; in this program the custom level
    holds only actions, and a (nonexistent) deeper child would resolve to
    an empty interior since no third level is ever created. -/
def resolveCustomEntry : MenuEntry → MenuNode
  | .action l t => MenuNode.leaf l t
  | .childLevel l => MenuNode.interior l []

/-- The resolved menu tree: root entries, with the child-level reference
    replaced by the own (resolved) entries of the custom level. -/
def resolveRoot (st : MenuState) : List MenuNode :=
  st.root_level.entries.map fun e =>
    match e with
    | MenuEntry.action l t => MenuNode.leaf l t
    | MenuEntry.childLevel l =>
        MenuNode.interior l (st.custom_level.entries.map resolveCustomEntry)

/-- The action tags held directly by a level, in order. -/
def levelActionTags (l : ActionMenuLevel) : List Int :=
  l.entries.filterMap fun e =>
    match e with
    | MenuEntry.action _ t => some t
    | MenuEntry.childLevel _ => none

/-- All leaf tags reachable from the root of the constructed two-level
    menu, in traversal order: a root action contributes its own tag, the
    child-level entry contributes the action tags of the custom level. -/
def menuLeafTags (st : MenuState) : List Int :=
  st.root_level.entries.flatMap fun e =>
    match e with
    | MenuEntry.action _ t => [t]
    | MenuEntry.childLevel _ => levelActionTags st.custom_level

/-- Lifecycle events delivered by the host framework: init_action_menu
    (called from init), action_menu_hierarchy_destroy (called from
    window_unload), and an action selection with its tag. -/
inductive AppEvent where
  | initMenu
  | destroyMenu
  | select (tag : Int)
deriving DecidableEq, Repr

/-- Whole-app mutable state: the menu singletons (none before construction
    and after destruction) and the handler state. -/
structure SysState where
  menu : Option MenuState
  handler : HandlerState

/-- State at program start: no menu built yet, the static segments buffer
    zero-initialized, s_current_type zero-initialized. -/
def initialState : SysState :=
  { menu := none, handler := { segments := fun _ => 0, current := 0 } }

/-- One lifecycle step: how each event transforms the state and which
    haptic commands it issues. Selection leaves the menu untouched;
    init/destroy leave the handler state untouched. -/
def step (st : SysState) : AppEvent → SysState × List VibeCmd
  | AppEvent.initMenu => ({ st with menu := some init_action_menu }, [])
  | AppEvent.destroyMenu => ({ st with menu := none }, [])
  | AppEvent.select tag =>
      let r := action_performed_callback tag st.handler
      ({ st with handler := r.1 }, r.2)

/-- Fold one event into an accumulated (state, issued commands) pair. -/
def runStep (acc : SysState × List VibeCmd) (e : AppEvent) :
    SysState × List VibeCmd :=
  let r := step acc.1 e
  (r.1, acc.2 ++ r.2)

/-- Run a list of lifecycle events from the initial state, collecting all
    issued haptic commands. -/
def run (events : List AppEvent) : SysState × List VibeCmd :=
  events.foldl runStep (initialState, [])

/-- Helper: folding any event list preserves the invariant that the menu
    slot is either empty or holds exactly the tree built by
    init_action_menu. -/
theorem foldl_menu_inv (evs : List AppEvent) :
    ∀ acc : SysState × List VibeCmd,
      (acc.1.menu = none ∨ acc.1.menu = some init_action_menu) →
      ((evs.foldl runStep acc).1.menu = none ∨
       (evs.foldl runStep acc).1.menu = some init_action_menu) := by
  induction evs with
  | nil => intro acc h; exact h
  | cons e rest ih =>
    intro acc h
    rw [List.foldl_cons]
    apply ih
    cases e with
    | initMenu => right; rfl
    | destroyMenu => left; rfl
    | select tag =>
      simpa only [runStep, step] using h

/-- Helper: after any event history, the menu slot is empty or holds the
    tree built by init_action_menu. -/
theorem run_menu_cases (evs : List AppEvent) :
    (run evs).1.menu = none ∨ (run evs).1.menu = some init_action_menu :=
  foldl_menu_inv evs (initialState, []) (Or.inl rfl)

/-- C1: for each custom tag, the callback synthesizes the five-segment
    pattern with segment i of duration i*k (k = 100 / 200 / 300), i.e. the
    literal patterns [0,100,200,300,400], [0,200,400,600,800] and
    [0,300,600,900,1200], and issues it as one custom-pattern command. -/
theorem custom_patterns_synthesized (st : HandlerState) :
    ((action_performed_callback VibrationType.CustomShort.toTag st).2 =
       [VibeCmd.customPattern ((List.range 5).map (fun i => i * 100))] ∧
     (action_performed_callback VibrationType.CustomShort.toTag st).2 =
       [VibeCmd.customPattern [0, 100, 200, 300, 400]]) ∧
    ((action_performed_callback VibrationType.CustomMedium.toTag st).2 =
       [VibeCmd.customPattern ((List.range 5).map (fun i => i * 200))] ∧
     (action_performed_callback VibrationType.CustomMedium.toTag st).2 =
       [VibeCmd.customPattern [0, 200, 400, 600, 800]]) ∧
    ((action_performed_callback VibrationType.CustomLong.toTag st).2 =
       [VibeCmd.customPattern ((List.range 5).map (fun i => i * 300))] ∧
     (action_performed_callback VibrationType.CustomLong.toTag st).2 =
       [VibeCmd.customPattern [0, 300, 600, 900, 1200]]) :=
  ⟨⟨rfl, rfl⟩, ⟨rfl, rfl⟩, ⟨rfl, rfl⟩⟩

/-- C2: for every one of the six VibrationType variants, a single call to
    the callback issues exactly one haptic command. -/
theorem one_command_per_selection (v : VibrationType) (st : HandlerState) :
    ∃ c : VibeCmd, (action_performed_callback v.toTag st).2 = [c] := by
  cases v <;> exact ⟨_, rfl⟩

/-- C3: for the Short, Long and Double tags the callback leaves the
    segments buffer untouched and issues the corresponding preset pulse
    exactly once (in particular, no custom-pattern command). -/
theorem presets_no_synthesis (st : HandlerState) :
    ((action_performed_callback VibrationType.Short.toTag st).2 =
       [VibeCmd.shortPulse] ∧
     (action_performed_callback VibrationType.Short.toTag st).1.segments =
       st.segments) ∧
    ((action_performed_callback VibrationType.Long.toTag st).2 =
       [VibeCmd.longPulse] ∧
     (action_performed_callback VibrationType.Long.toTag st).1.segments =
       st.segments) ∧
    ((action_performed_callback VibrationType.Double.toTag st).2 =
       [VibeCmd.doublePulse] ∧
     (action_performed_callback VibrationType.Double.toTag st).1.segments =
       st.segments) :=
  ⟨⟨rfl, rfl⟩, ⟨rfl, rfl⟩, ⟨rfl, rfl⟩⟩

/-- C7: s_current_type holds the most recently selected tag — every call
    to the callback sets it to the tag of that call — and no other lifecycle
    operation (menu construction or destruction) writes it. -/
theorem current_selection_slot (st : SysState) (tag : Int) :
    (step st (AppEvent.select tag)).1.handler.current = tag ∧
    (action_performed_callback tag st.handler).1.current = tag ∧
    (step st AppEvent.initMenu).1.handler.current = st.handler.current ∧
    (step st AppEvent.destroyMenu).1.handler.current = st.handler.current := by
  refine ⟨?_, ?_, rfl, rfl⟩ <;>
    · show (action_performed_callback tag st.handler).1.current = tag
      unfold action_performed_callback
      split <;> [rfl; skip]
      split <;> [rfl; skip]
      split <;> rfl

/-- C10: for every valid VibrationType variant, the commands issued by the
    callback do not depend on the prior handler state: the custom branch
    fully rewrites all five segment slots before issuing the pattern. -/
theorem selection_deterministic (v : VibrationType)
    (st1 st2 : HandlerState) :
    (action_performed_callback v.toTag st1).2 =
      (action_performed_callback v.toTag st2).2 := by
  cases v <;> rfl

/-- C4: any menu tree reachable by any event history has exactly 4 root
    entries — 3 leaves plus the single "Custom Pattern" submenu — and the
    submenu holds exactly the 3 custom leaves; since every reachable tree
    equals the constructed one, the tree is never mutated after
    construction. -/
theorem menu_tree_shape (evs : List AppEvent) (m : MenuState)
    (h : (run evs).1.menu = some m) :
    (resolveRoot m).length = 4 ∧
    ((resolveRoot m).filter MenuNode.isLeaf).length = 3 ∧
    ((resolveRoot m).filter fun n => ! n.isLeaf) =
      [MenuNode.interior "Custom Pattern"
        [MenuNode.leaf "Custom Fast" 3,
         MenuNode.leaf "Custom Medium" 4,
         MenuNode.leaf "Custom Slow" 5]] ∧
    m = init_action_menu := by
  rcases run_menu_cases evs with hn | hs
  · rw [hn] at h; exact absurd h (by simp)
  · rw [hs] at h
    injection h with h
    subst h
    exact ⟨rfl, rfl, rfl, rfl⟩

/-- C4 witness: the shape facts hold concretely for the tree present right
    after the init event. -/
theorem menu_tree_shape_witness :
    (resolveRoot init_action_menu).length = 4 ∧
    ((resolveRoot init_action_menu).filter MenuNode.isLeaf).length = 3 ∧
    ((resolveRoot init_action_menu).filter fun n => ! n.isLeaf) =
      [MenuNode.interior "Custom Pattern"
        [MenuNode.leaf "Custom Fast" 3,
         MenuNode.leaf "Custom Medium" 4,
         MenuNode.leaf "Custom Slow" 5]] ∧
    init_action_menu = init_action_menu :=
  menu_tree_shape [AppEvent.initMenu] init_action_menu rfl

/-- The six VibrationType variants in declaration order. -/
def allVariants : List VibrationType :=
  [VibrationType.Short, VibrationType.Long, VibrationType.Double,
   VibrationType.CustomShort, VibrationType.CustomMedium,
   VibrationType.CustomLong]

/-- C5: in any reachable menu tree the leaf tags are exactly the tags of
    the six VibrationType variants, each occurring exactly once, with no
    duplicate and no tag outside the enumeration. -/
theorem leaf_tags_bijective (evs : List AppEvent) (m : MenuState)
    (h : (run evs).1.menu = some m) :
    menuLeafTags m = allVariants.map VibrationType.toTag ∧
    (∀ v : VibrationType, (menuLeafTags m).count v.toTag = 1) ∧
    (menuLeafTags m).Nodup ∧
    ∀ t ∈ menuLeafTags m, ∃ v : VibrationType, v.toTag = t := by
  rcases run_menu_cases evs with hn | hs
  · rw [hn] at h; exact absurd h (by simp)
  · rw [hs] at h
    injection h with h
    subst h
    exact ⟨rfl, by decide, by decide, by decide⟩

/-- C5 witness: the tag correspondence holds concretely for the
    constructed tree. -/
theorem leaf_tags_bijective_witness :
    menuLeafTags init_action_menu = allVariants.map VibrationType.toTag ∧
    (∀ v : VibrationType,
      (menuLeafTags init_action_menu).count v.toTag = 1) ∧
    (menuLeafTags init_action_menu).Nodup ∧
    ∀ t ∈ menuLeafTags init_action_menu, ∃ v : VibrationType, v.toTag = t :=
  leaf_tags_bijective [AppEvent.initMenu] init_action_menu rfl

/-- C6: construction is deterministic — after any histories, appending a
    build event always leaves the one canonical tree, and teardown followed
    by rebuild leaves a tree equal to the one a plain build leaves. -/
theorem build_deterministic_idempotent (evs1 evs2 : List AppEvent) :
    (run (evs1 ++ [AppEvent.initMenu])).1.menu = some init_action_menu ∧
    (run (evs2 ++ [AppEvent.destroyMenu, AppEvent.initMenu])).1.menu =
      some init_action_menu ∧
    (run (evs1 ++ [AppEvent.initMenu])).1.menu =
      (run (evs2 ++ [AppEvent.destroyMenu, AppEvent.initMenu])).1.menu := by
  refine ⟨?_, ?_, ?_⟩
  · unfold run; rw [List.foldl_append]; rfl
  · unfold run; rw [List.foldl_append]; rfl
  · unfold run; rw [List.foldl_append, List.foldl_append]; rfl

/-- Durations carried by a haptic command: a custom pattern carries its
    segment list, the preset pulses carry none. -/
def cmdDurations : VibeCmd → List Nat
  | VibeCmd.customPattern l => l
  | _ => []

/-- C8: the synthesis arithmetic does not overflow uint32_t — for every
    loop index the stored value equals the unreduced product i*k — the
    products stay at most 1200, and every duration of every command issued
    for an enumerated tag is at most 1200, the bound 1200 being attained
    by the CustomLong pattern. -/
theorem durations_bounded (st : HandlerState) (i : Nat) (old : Nat)
    (hi : i < 5) :
    (segmentValue 3 i old = i * 100 ∧
     segmentValue 4 i old = i * 200 ∧
     segmentValue 5 i old = i * 300) ∧
    i * 300 ≤ 1200 ∧
    (∀ v : VibrationType, ∀ c ∈ (action_performed_callback v.toTag st).2,
      ∀ d ∈ cmdDurations c, d ≤ 1200) ∧
    (∃ l : List Nat,
      (action_performed_callback VibrationType.CustomLong.toTag st).2 =
        [VibeCmd.customPattern l] ∧ l.maximum = some 1200) := by
  have hmod : UINT32_MOD = 4294967296 := by norm_num [UINT32_MOD]
  refine ⟨⟨?_, ?_, ?_⟩, by omega, ?_, ⟨[0, 300, 600, 900, 1200], rfl, by decide⟩⟩
  · simp only [segmentValue, hmod]; norm_num; omega
  · simp only [segmentValue, hmod]; norm_num; omega
  · simp only [segmentValue, hmod]; norm_num; omega
  · intro v c hc d hd
    cases v with
    | Short =>
      have hc2 : c ∈ [VibeCmd.shortPulse] := hc
      rw [List.mem_singleton] at hc2; subst hc2
      simp [cmdDurations] at hd
    | Long =>
      have hc2 : c ∈ [VibeCmd.longPulse] := hc
      rw [List.mem_singleton] at hc2; subst hc2
      simp [cmdDurations] at hd
    | Double =>
      have hc2 : c ∈ [VibeCmd.doublePulse] := hc
      rw [List.mem_singleton] at hc2; subst hc2
      simp [cmdDurations] at hd
    | CustomShort =>
      have hc2 : c ∈ [VibeCmd.customPattern [0, 100, 200, 300, 400]] := hc
      rw [List.mem_singleton] at hc2; subst hc2
      have hall : ∀ x ∈ [0, 100, 200, 300, 400], x ≤ 1200 := by decide
      exact hall d hd
    | CustomMedium =>
      have hc2 : c ∈ [VibeCmd.customPattern [0, 200, 400, 600, 800]] := hc
      rw [List.mem_singleton] at hc2; subst hc2
      have hall : ∀ x ∈ [0, 200, 400, 600, 800], x ≤ 1200 := by decide
      exact hall d hd
    | CustomLong =>
      have hc2 : c ∈ [VibeCmd.customPattern [0, 300, 600, 900, 1200]] := hc
      rw [List.mem_singleton] at hc2; subst hc2
      have hall : ∀ x ∈ [0, 300, 600, 900, 1200], x ≤ 1200 := by decide
      exact hall d hd

/-- C8 witness: the overflow-freedom and bound facts at the last loop
    index. -/
theorem durations_bounded_witness :
    (segmentValue 3 4 0 = 4 * 100 ∧
     segmentValue 4 4 0 = 4 * 200 ∧
     segmentValue 5 4 0 = 4 * 300) ∧
    4 * 300 ≤ 1200 ∧
    (∀ v : VibrationType,
      ∀ c ∈ (action_performed_callback v.toTag initialState.handler).2,
      ∀ d ∈ cmdDurations c, d ≤ 1200) ∧
    (∃ l : List Nat,
      (action_performed_callback VibrationType.CustomLong.toTag
          initialState.handler).2 =
        [VibeCmd.customPattern l] ∧ l.maximum = some 1200) :=
  durations_bounded initialState.handler 4 0 (by decide)

/-- C9: the callback is total with no error path — every tag outside the
    three preset cases takes the custom branch and issues exactly one
    custom-pattern command; for a tag that is not even one of the six
    enumerated values the segments buffer is left as it was and the issued
    durations are exactly its current contents, which start out all
    zero. -/
theorem invalid_tag_total (tag : Int) (st : HandlerState)
    (h0 : tag ≠ 0) (h1 : tag ≠ 1) (h2 : tag ≠ 2) :
    (∃ l : List Nat,
      (action_performed_callback tag st).2 = [VibeCmd.customPattern l]) ∧
    (tag ≠ 3 → tag ≠ 4 → tag ≠ 5 →
      (action_performed_callback tag st).2 =
        [VibeCmd.customPattern (List.ofFn st.segments)] ∧
      (action_performed_callback tag st).1.segments = st.segments) ∧
    List.ofFn initialState.handler.segments = [0, 0, 0, 0, 0] := by
  have hcb : action_performed_callback tag st =
      ({ current := tag,
         segments := fun i => segmentValue tag i.val (st.segments i) },
       [VibeCmd.customPattern
         (List.ofFn fun i : Fin 5 => segmentValue tag i.val (st.segments i))]) := by
    unfold action_performed_callback
    rw [if_neg h0, if_neg h1, if_neg h2]
  refine ⟨⟨_, by rw [hcb]⟩, ?_, rfl⟩
  intro h3 h4 h5
  have hseg : (fun i : Fin 5 => segmentValue tag i.val (st.segments i)) =
      st.segments := by
    funext i
    simp [segmentValue, h3, h4, h5]
  rw [hcb, hseg]
  exact ⟨rfl, rfl⟩

/-- C9 witness: the totality facts at the non-enumerated tag 7 from the
    initial all-zero buffer. -/
theorem invalid_tag_total_witness :
    (∃ l : List Nat,
      (action_performed_callback 7 initialState.handler).2 =
        [VibeCmd.customPattern l]) ∧
    ((7 : Int) ≠ 3 → (7 : Int) ≠ 4 → (7 : Int) ≠ 5 →
      (action_performed_callback 7 initialState.handler).2 =
        [VibeCmd.customPattern (List.ofFn initialState.handler.segments)] ∧
      (action_performed_callback 7 initialState.handler).1.segments =
        initialState.handler.segments) ∧
    List.ofFn initialState.handler.segments = [0, 0, 0, 0, 0] :=
  invalid_tag_total 7 initialState.handler (by decide) (by decide) (by decide)

end ActionMenuML
